import Mathlib

/-!
Shallow embedding of the document retrieval core of the backend
(`app/services/document_service.py` and `app/api/routes/documents.py`).

Modelling conventions:
* Tokens are natural numbers (the tokenizer `tiktoken` is an external
  capability; chunking manipulates the token list only through slicing, so
  the token type is irrelevant).
* Embedding vectors are `List Int`; similarity scores are `Int` (the code
  uses floats but only ever compares a score against a threshold, so any
  linearly ordered type is faithful).
* External collaborators (the OpenAI embedding call, the FAISS index files
  on disk, the FAISS nearest-neighbour search, the SQL database) are
  injected as explicit parameters: an `Except` value for a call that can
  raise, a `LoadState` for the state of the persisted index artifacts, an
  oracle function for `index.search`, and a list of rows for the
  `document_metadata` table.
* Python exceptions are modelled with `Except`; a `try/except` handler is
  the corresponding `match` on the `Except` value.
-/

set_option maxRecDepth 40000

namespace DocService

/-- An embedding vector (contents are irrelevant to the verified claims). -/
abbrev Vec := List Int

/-- The per-chunk metadata dict built in `DocumentService._chunk_text`
(lines 155-161): doc_id, chunk_index, company_number, document_type,
token_count. -/
structure ChunkMeta where
  doc_id : String
  chunk_index : Nat
  company_number : Option String
  document_type : String
  token_count : Nat
deriving DecidableEq

/-- A metadata entry of the vector store as written by
`_store_in_vector_db` (lines 223-227): the assigned `vector_id` together
with the chunk metadata. -/
structure IndexEntryMeta where
  vector_id : Nat
  meta : ChunkMeta
deriving DecidableEq

/-- The pair of persisted artifacts: the FAISS index (`faiss.index`,
represented by its list of stored vectors, so `index.ntotal` is
`vectors.length`) and the pickled metadata list (`metadata.pkl`). -/
structure VectorStore where
  vectors : List Vec
  metadata : List IndexEntryMeta
deriving DecidableEq

/-- State of the persisted artifacts as seen by an operation that loads
them: the index file does not exist; reading either artifact raises; or
both load successfully. -/
inductive LoadState where
  | absent : LoadState
  | failed : LoadState
  | loaded : VectorStore → LoadState
deriving DecidableEq

/-- Models `faiss.read_index` + `pickle.load` as performed by
`_store_in_vector_db` lines 203-210: a missing index file means a fresh
empty index, a read failure raises (modelled as `none`). -/
def loadStore : LoadState → Option VectorStore
  | .absent => some ⟨[], []⟩
  | .failed => none
  | .loaded s => some s

/-- An `HTTPException(status_code, detail)`. -/
structure HErr where
  status : Nat
  detail : String
deriving DecidableEq

/-! ## Chunker (`DocumentService._chunk_text`, lines 136-165) -/

/-- The `chunk_size` configured in `DocumentService.__init__` (line 35). -/
def chunk_size : Nat := 1000

/-- The `chunk_overlap` configured in `DocumentService.__init__` (line 36). -/
def chunk_overlap : Nat := 200

/-- The `max_file_size` configured in `DocumentService.__init__` (line 37). -/
def max_file_size : Nat := 50 * 1024 * 1024

/-- Python `range(0, n, step)` for a positive `step` (the code always uses
`step = chunk_size - chunk_overlap = 800 > 0`): the list
`[0, step, 2*step, ...]` of all multiples of `step` below `n`. -/
def pyRange (n step : Nat) : List Nat :=
  (List.range ((n + step - 1) / step)).map (· * step)

/-- The chunking loop of `_chunk_text` (lines 150-152): for each start
offset `i` produced by `range(0, len(tokens), chunk_size - chunk_overlap)`
emit the token slice `tokens[i : i + chunk_size]`. -/
def chunkText (tokens : List Nat) (cs ov : Nat) : List (List Nat) :=
  (pyRange tokens.length (cs - ov)).map (fun i => (tokens.drop i).take cs)

/-- The metadata construction of `_chunk_text` (lines 154-163):
`chunk_index` is the position in emission order (`len(chunks)` at append
time), `token_count` is the length of the chunk's token slice. -/
def chunkWithMeta (docId : String) (co : Option String) (dt : String) :
    Nat → List (List Nat) → List (List Nat × ChunkMeta)
  | _, [] => []
  | i, c :: rest =>
      (c, ⟨docId, i, co, dt, c.length⟩) :: chunkWithMeta docId co dt (i + 1) rest

/-- Models `_chunk_text` as a whole: chunk the token stream with the service's
configured window parameters and attach metadata. -/
def chunkDocument (tokens : List Nat) (docId : String) (co : Option String)
    (dt : String) : List (List Nat × ChunkMeta) :=
  chunkWithMeta docId co dt 0 (chunkText tokens chunk_size chunk_overlap)

/-! ## Vector store append (`_store_in_vector_db`, lines 196-241) -/

/-- The metadata-append loop of `_store_in_vector_db` (lines 223-227):
`enumerate(chunks)` paired with `start_id + i`. -/
def withIds (start : Nat) : List ChunkMeta → List IndexEntryMeta
  | [] => []
  | m :: rest => ⟨start, m⟩ :: withIds (start + 1) rest

/-- Models `_store_in_vector_db`: load (or freshly create) the index and the
metadata list; `start_id = index.ntotal`; append the (normalized)
embeddings and the metadata entries `start_id + i`; persist both; return
`list(range(start_id, start_id + len(chunks)))`.  Any exception (here: a
load failure) is caught and re-raised as
`HTTPException(500, "Error storing in vector database")` (lines 239-241).
`nrm` is the external `faiss.normalize_L2`.  The write-back of the two
artifacts is modelled as atomic (the code writes them as two separate
files; a crash between the two writes is an I/O interleaving outside this
embedding). -/
def storeInVectorDb (nrm : Vec → Vec) (ls : LoadState)
    (chunks : List (Vec × ChunkMeta)) :
    Except HErr (List Nat × VectorStore) :=
  match loadStore ls with
  | none => .error ⟨500, "Error storing in vector database"⟩
  | some store =>
      let start_id := store.vectors.length
      .ok (List.range' start_id chunks.length,
           ⟨store.vectors ++ chunks.map (fun c => nrm c.1),
            store.metadata ++ withIds start_id (chunks.map (fun c => c.2))⟩)

/-! ## Search (`search_documents`, lines 265-327) -/

/-- One element of the `results` list built at lines 313-317: score,
the metadata entry, and the placeholder chunk text
`"Document chunk from <doc_id>"`. -/
structure SearchResult where
  score : Int
  metadata : IndexEntryMeta
  chunk_text : String
deriving DecidableEq

/-- Python list indexing `l[i]` with an `int` index: negative indices
count from the end; an index out of range raises `IndexError` (`none`). -/
def pyGet (l : List α) (i : Int) : Option α :=
  let j : Int := if 0 ≤ i then i else i + l.length
  if 0 ≤ j then l.get? j.toNat else none

/-- Python truthiness of the `company_number` parameter
(`if company_number:` at line 306): `None` and the empty string are
falsy. -/
def strTruthy : Option String → Bool
  | none => false
  | some s => s ≠ ""

/-- The candidate filtering loop of `search_documents` (lines 298-320):
skip `idx == -1` and scores below the threshold; `metadata_list[idx]`
raises `IndexError` when out of range (propagating to the outer handler);
when the caller supplied a (truthy) company, skip entries that neither
match the company nor have `document_type == "general"`; stop once
`top_k` results are collected. -/
def filterLoop (metadata_list : List IndexEntryMeta)
    (company_number : Option String) (top_k : Nat) (threshold : Int) :
    List (Int × Int) → List SearchResult → Except String (List SearchResult)
  | [], acc => .ok acc
  | (score, idx) :: rest, acc =>
      if idx = -1 ∨ score < threshold then
        filterLoop metadata_list company_number top_k threshold rest acc
      else
        match pyGet metadata_list idx with
        | none => .error "IndexError"
        | some md =>
            if strTruthy company_number ∧
               md.meta.company_number ≠ company_number ∧
               md.meta.document_type ≠ "general" then
              filterLoop metadata_list company_number top_k threshold rest acc
            else
              let acc' := acc ++
                [⟨score, md, "Document chunk from " ++ md.meta.doc_id⟩]
              if top_k ≤ acc'.length then .ok acc'
              else filterLoop metadata_list company_number top_k threshold rest acc'

/-- The collaborators of one `search_documents` call: the result of
`_generate_embeddings([query])` (which can raise), the state of the
persisted artifacts, and the FAISS `index.search` oracle returning
`(score, idx)` rows for a requested candidate count. -/
structure SearchEnv where
  embed : Except String Vec
  load : LoadState
  ann : VectorStore → Nat → List (Int × Int)

/-- The body of the `try` block of `search_documents` (lines 274-323):
embed the query; return `[]` if no index file exists; load both
artifacts; ask FAISS for `min(top_k * 3, index.ntotal)` candidates; run
the filtering loop.  An `.error` is an uncaught Python exception inside
the `try` block. -/
def searchBody (env : SearchEnv) (company_number : Option String)
    (top_k : Nat) (threshold : Int) : Except String (List SearchResult) :=
  match env.embed with
  | .error e => .error e
  | .ok _q =>
      match env.load with
      | .absent => .ok []
      | .failed => .error "index artifacts unreadable"
      | .loaded store =>
          filterLoop store.metadata company_number top_k threshold
            (env.ann store (min (top_k * 3) store.vectors.length)) []

/-- Models `search_documents` as a whole: the `try` body with the
`except Exception: return []` handler of lines 325-327. -/
def searchDocuments (env : SearchEnv) (company_number : Option String)
    (top_k : Nat) (threshold : Int) : List SearchResult :=
  match searchBody env company_number top_k threshold with
  | .ok r => r
  | .error _ => []

/-! ## Catalog and delete (`delete_document`, lines 329-357, and the
route `DELETE /documents/{doc_id}`, `app/api/routes/documents.py`
lines 93-131) -/

/-- A row of the `document_metadata` table (the columns used by the
delete service and route). -/
structure DocRow where
  doc_id : String
  user_id : String
  company_number : Option String
  document_type : String
  chunk_count : Nat
  vector_ids : List Nat
deriving DecidableEq

/-- The `document_metadata` table. -/
abbrev Catalog := List DocRow

/-- Models `DocumentService.delete_document`: look the row up
(`SELECT vector_ids ... WHERE doc_id`); return `False` when absent;
otherwise `DELETE` the row and commit, returning `True`.  The whole body
is wrapped in `except Exception: return False`, so a database failure at
the lookup (`lookupFails`) or at the delete/commit (`deleteFails`) is
caught, nothing is committed, and the call returns `False` with the
catalog unchanged.  The vector store artifacts are never touched (the
code only comments that FAISS does not support deletion). -/
def deleteDocument (lookupFails deleteFails : Bool) (docId : String)
    (db : Catalog) : Bool × Catalog :=
  if lookupFails then (false, db)
  else
    match db.find? (fun r => r.doc_id == docId) with
    | none => (false, db)
    | some _ =>
        if deleteFails then (false, db)
        else (true, db.filter (fun r => r.doc_id != docId))

/-- Outcome of a route handler: a JSON success response or an
`HTTPException`. -/
inductive RouteResult where
  | ok : RouteResult
  | err : Nat → String → RouteResult
deriving DecidableEq

/-- The `DELETE /documents/{doc_id}` route handler (lines 93-131): its
own ownership lookup (`SELECT user_id ... WHERE doc_id`, which can itself
fail: `routeFails`, caught by the generic handler as a 500), then 404
when the row is absent, 403 when the caller is not the owner, then the
service call; a `False` from the service surfaces as
`HTTPException(404, "Document not found")`. -/
def deleteDocumentRoute (routeFails lookupFails deleteFails : Bool)
    (docId userId : String) (db : Catalog) : RouteResult × Catalog :=
  if routeFails then (.err 500 "Error deleting document", db)
  else
    match db.find? (fun r => r.doc_id == docId) with
    | none => (.err 404 "Document not found", db)
    | some row =>
        if row.user_id != userId then (.err 403 "Permission denied", db)
        else
          match deleteDocument lookupFails deleteFails docId db with
          | (true, db') => (.ok, db')
          | (false, db') => (.err 404 "Document not found", db')

/-! ## Upload (`upload_document`, lines 50-121) -/

/-- The file-extension dispatch of lines 71-76. -/
inductive FileKind where
  | pdf : FileKind
  | txt : FileKind
  | other : FileKind
deriving DecidableEq

/-- The collaborators and inputs of one `upload_document` call:
the uploaded file's size and recognized extension; the result of text
extraction (`_extract_pdf_text` or UTF-8 decode, which can raise); the
`tiktoken` tokenizer oracle; the result of `_generate_embeddings` over
the chunk texts (which can raise); the normalization oracle; and the
state of the persisted index artifacts. -/
structure UploadEnv where
  size : Nat
  kind : FileKind
  extractResult : Except Unit String
  tokenize : String → List Nat
  embedResult : Except Unit (List Vec)
  nrm : Vec → Vec
  load : LoadState
  dbInsertOk : Bool

/-- The success payload of `upload_document` (lines 111-117). -/
structure UploadResp where
  doc_id : String
  chunk_count : Nat
deriving DecidableEq

/-- The full outcome of one `upload_document` call: the returned value
or raised `HTTPException`, the state of the persisted index artifacts
after the call, and the catalog after the call. -/
structure UploadOutcome where
  resp : Except HErr UploadResp
  store : LoadState
  db : Catalog

/-- Models `upload_document` (lines 50-121), with the service-level
`except Exception` handler left implicit in the error values (at the HTTP
boundary every raised error is re-wrapped as a 500
`"Error processing document: ..."`; the inner status/detail recorded here
is the `HTTPException` raised at the failing step):
1. reject files over `max_file_size` (line 61);
2. extract text by extension (lines 71-76), rejecting unknown extensions;
3. reject empty/whitespace-only text (line 78);
4. chunk (line 82) and embed (line 85), pairing chunks with embeddings
   by `zip` (line 88);
5. append to the vector store (line 92);
6. only then insert the catalog row (line 107). -/
def uploadDocument (env : UploadEnv) (docId : String)
    (co : Option String) (dt userId : String) (db : Catalog) :
    UploadOutcome :=
  if max_file_size < env.size then
    ⟨.error ⟨400, "File too large"⟩, env.load, db⟩
  else if env.kind = .other then
    ⟨.error ⟨400, "Unsupported file type"⟩, env.load, db⟩
  else
    match env.extractResult with
    | .error _ => ⟨.error ⟨400, "Error reading PDF file"⟩, env.load, db⟩
    | .ok text =>
        if text.data.all Char.isWhitespace then
          ⟨.error ⟨400, "No text content found in file"⟩, env.load, db⟩
        else
          let chunks := chunkDocument (env.tokenize text) docId co dt
          match env.embedResult with
          | .error _ =>
              ⟨.error ⟨500, "Error generating embeddings"⟩, env.load, db⟩
          | .ok embeds =>
              let pairs := (chunks.zip embeds).map
                (fun p => (p.2, p.1.2))
              match storeInVectorDb env.nrm env.load pairs with
              | .error e => ⟨.error e, env.load, db⟩
              | .ok (ids, st') =>
                  if env.dbInsertOk then
                    ⟨.ok ⟨docId, chunks.length⟩, .loaded st',
                     db ++ [⟨docId, userId, co, dt, chunks.length, ids⟩]⟩
                  else
                    ⟨.error ⟨500, "Error saving document metadata"⟩,
                     .loaded st', db⟩

/-- The disjunction of upload failures that happen before the vector
store is touched: oversized file, unsupported extension, extraction
failure, empty extracted text, or embedding failure. -/
def preIndexFailure (env : UploadEnv) : Bool :=
  (max_file_size < env.size) ||
  (env.kind = FileKind.other) ||
  (match env.extractResult with
   | .error _ => true
   | .ok text => text.data.all Char.isWhitespace) ||
  (match env.embedResult with
   | .error _ => true
   | .ok _ => false)

/-- Python `l[-k:]` for `0 < k`: the last `k` elements (the whole list
when `k` exceeds its length). -/
def lastN (k : Nat) (l : List α) : List α := l.drop (l.length - k)

/-! ## Chunker lemmas -/

theorem length_pyRange (n step : Nat) :
    (pyRange n step).length = (n + step - 1) / step := by
  simp [pyRange]

theorem getElem?_pyRange {n step i : Nat} (h : i < (n + step - 1) / step) :
    (pyRange n step)[i]? = some (i * step) := by
  simp [pyRange, List.getElem?_range h]

theorem lt_ceil_iff {k n step : Nat} (h : 0 < step) :
    k < (n + step - 1) / step ↔ k * step < n := by
  rw [Nat.lt_iff_add_one_le, Nat.le_div_iff_mul_le h, Nat.succ_mul]
  generalize k * step = K
  omega

theorem mem_pyRange {n step s : Nat} (h : 0 < step) :
    s ∈ pyRange n step ↔ (∃ k, s = k * step) ∧ s < n := by
  simp only [pyRange, List.mem_map, List.mem_range]
  constructor
  · rintro ⟨k, hk, rfl⟩
    exact ⟨⟨k, rfl⟩, (lt_ceil_iff h).mp hk⟩
  · rintro ⟨⟨k, rfl⟩, hs⟩
    exact ⟨k, (lt_ceil_iff h).mpr hs, rfl⟩

theorem length_chunkText (tokens : List Nat) (cs ov : Nat) :
    (chunkText tokens cs ov).length =
      (tokens.length + (cs - ov) - 1) / (cs - ov) := by
  simp [chunkText, length_pyRange]

theorem getElem?_chunkText {tokens : List Nat} {cs ov i : Nat}
    (h : i < (tokens.length + (cs - ov) - 1) / (cs - ov)) :
    (chunkText tokens cs ov)[i]? =
      some ((tokens.drop (i * (cs - ov))).take cs) := by
  simp [chunkText, getElem?_pyRange h]

/-- C4 (amended): the chunker emits the input as its unique chunk exactly
when the token count is positive and at most `chunk_size - chunk_overlap`
(the loop stride).  Inputs with a token count strictly between the stride
and `chunk_size` — still "shorter than `chunk_size_tokens`" — yield a
second, redundant chunk, and the empty input yields no chunk at all. -/
theorem chunk_single_iff (tokens : List Nat) (cs ov : Nat) (hov : ov < cs) :
    chunkText tokens cs ov = [tokens] ↔
      0 < tokens.length ∧ tokens.length ≤ cs - ov := by
  have hstep : 0 < cs - ov := by omega
  constructor
  · intro h
    have hlen := length_chunkText tokens cs ov
    rw [h, List.length_singleton] at hlen
    have h0 : 0 * (cs - ov) < tokens.length :=
      (lt_ceil_iff hstep).mp (by rw [← hlen]; omega)
    have h1 : ¬ 1 * (cs - ov) < tokens.length := by
      intro hc
      have h3 := (lt_ceil_iff hstep).mpr hc
      rw [← hlen] at h3
      omega
    omega
  · rintro ⟨h0, hle⟩
    have hq : (tokens.length + (cs - ov) - 1) / (cs - ov) = 1 :=
      Nat.div_eq_of_lt_le (k := 1) (n := cs - ov)
        (m := tokens.length + (cs - ov) - 1) (by omega)
        (by have h2 : (1 + 1) * (cs - ov) = (cs - ov) + (cs - ov) := by ring
            omega)
    have htake : tokens.take cs = tokens :=
      List.take_of_length_le (by omega)
    have hr : List.range 1 = [0] := by decide
    simp [chunkText, pyRange, hq, htake, hr]

/-- C4 counterexample: a 900-token input has strictly fewer tokens than
`chunk_size = 1000`, yet the chunker emits two chunks (offsets 0 and 800),
not one. -/
theorem chunk_short_input_two_chunks :
    (List.range 900).length < chunk_size ∧
    (chunkText (List.range 900) chunk_size chunk_overlap).length = 2 := by
  constructor
  · simp [chunk_size]
  · rw [length_chunkText, List.length_range]
    norm_num [chunk_size, chunk_overlap]

/-- C5 (amended): the overlap invariant holds for a pair of consecutive
chunks `i`, `i+1` whenever chunk `i` is a full window, i.e.
`i * (chunk_size - overlap) + chunk_size ≤ token count`: the last
`overlap` tokens of chunk `i` equal the first `overlap` tokens of chunk
`i+1`.  (When the input is long enough for chunk `i+1` to exist but
chunk `i` is truncated, the two chunks share fewer than `overlap`
tokens.) -/
theorem chunk_overlap_of_full (tokens : List Nat) (cs ov i : Nat)
    (hov0 : 0 < ov) (hov : ov < cs)
    (hfull : i * (cs - ov) + cs ≤ tokens.length) :
    i + 1 < (chunkText tokens cs ov).length ∧
    lastN ov ((chunkText tokens cs ov).getD i []) =
      ((chunkText tokens cs ov).getD (i + 1) []).take ov := by
  have hstep : 0 < cs - ov := by omega
  have hmul : (i + 1) * (cs - ov) = i * (cs - ov) + (cs - ov) := by
    rw [Nat.succ_mul]
  have hnext : (i + 1) * (cs - ov) < tokens.length := by omega
  have hcur : i * (cs - ov) < tokens.length := by omega
  have hi1 : i + 1 < (tokens.length + (cs - ov) - 1) / (cs - ov) :=
    (lt_ceil_iff hstep).mpr hnext
  have hi : i < (tokens.length + (cs - ov) - 1) / (cs - ov) := by omega
  refine ⟨by rw [length_chunkText]; exact hi1, ?_⟩
  rw [List.getD_eq_getElem?_getD, List.getD_eq_getElem?_getD,
      getElem?_chunkText hi, getElem?_chunkText hi1]
  simp only [Option.getD_some]
  have hlen : ((tokens.drop (i * (cs - ov))).take cs).length = cs := by
    simp only [List.length_take, List.length_drop]
    omega
  rw [lastN, hlen, List.drop_take, List.drop_drop, List.take_take]
  have h1 : cs - (cs - ov) = ov := by omega
  have h2 : min ov cs = ov := by omega
  rw [h1, h2, ← hmul]

/-- C5 counterexample: with the service's configuration (window 1000,
overlap 200) a 1700-token input — longer than one window — produces
chunks at offsets 0, 800, 1600 of lengths 1000, 900, 100; the last 200
tokens of chunk 1 are tokens 1500-1699, but the first 200 tokens of chunk
2 are only the 100 tokens 1600-1699, so the consecutive pair (1, 2) does
not share `overlap_tokens` tokens at the boundary. -/
theorem chunk_overlap_fails_on_truncated_pair :
    chunk_size < (List.range 1700).length ∧
    (chunkText (List.range 1700) chunk_size chunk_overlap).length = 3 ∧
    lastN chunk_overlap
        ((chunkText (List.range 1700) chunk_size chunk_overlap).getD 1 []) ≠
      ((chunkText (List.range 1700) chunk_size chunk_overlap).getD 2
          []).take chunk_overlap := by
  refine ⟨by simp [chunk_size], ?_, ?_⟩
  · rw [length_chunkText, List.length_range]
    norm_num [chunk_size, chunk_overlap]
  · decide

/-- C6 (confirmed): coverage — with the service's configuration, a
position `j` is a token position of the input iff some chunk start `s`
emitted by the chunking loop satisfies `s ≤ j < s + (length of the chunk
at `s`)`: the union of the chunk token ranges is exactly the full token
range of the input. -/
theorem chunk_coverage (tokens : List Nat) (j : Nat) :
    j < tokens.length ↔
      ∃ s ∈ pyRange tokens.length (chunk_size - chunk_overlap),
        (tokens.drop s).take chunk_size ∈
          chunkText tokens chunk_size chunk_overlap ∧
        s ≤ j ∧ j < s + ((tokens.drop s).take chunk_size).length := by
  have hstep : 0 < chunk_size - chunk_overlap := by
    simp [chunk_size, chunk_overlap]
  constructor
  · intro hj
    refine ⟨j / (chunk_size - chunk_overlap) * (chunk_size - chunk_overlap),
      (mem_pyRange hstep).mpr ⟨⟨j / (chunk_size - chunk_overlap), rfl⟩, ?_⟩,
      List.mem_map_of_mem _ ((mem_pyRange hstep).mpr
        ⟨⟨j / (chunk_size - chunk_overlap), rfl⟩, ?_⟩), ?_, ?_⟩ <;>
      simp only [chunk_size, chunk_overlap, List.length_take,
        List.length_drop] at * <;> omega
  · rintro ⟨s, hs, _, hsj, hj⟩
    rw [mem_pyRange hstep] at hs
    simp only [List.length_take, List.length_drop] at hj
    omega

/-! ## Search lemmas -/

theorem searchDocuments_of_body_error {env : SearchEnv} {cn : Option String}
    {k : Nat} {t : Int} {e : String}
    (h : searchBody env cn k t = .error e) : searchDocuments env cn k t = [] := by
  simp [searchDocuments, h]

theorem searchDocuments_of_body_ok {env : SearchEnv} {cn : Option String}
    {k : Nat} {t : Int} {r : List SearchResult}
    (h : searchBody env cn k t = .ok r) : searchDocuments env cn k t = r := by
  simp [searchDocuments, h]

/-- Candidates that are all `idx == -1` or below the threshold are all
skipped by the filtering loop. -/
theorem filterLoop_skip_all (ml : List IndexEntryMeta) (cn : Option String)
    (k : Nat) (t : Int) (cands : List (Int × Int)) (acc : List SearchResult)
    (h : ∀ p ∈ cands, p.2 = -1 ∨ p.1 < t) :
    filterLoop ml cn k t cands acc = .ok acc := by
  induction cands generalizing acc with
  | nil => rfl
  | cons p rest ih =>
      obtain ⟨score, idx⟩ := p
      have h1 : idx = -1 ∨ score < t := h (score, idx) (by simp)
      simp only [filterLoop]
      rw [if_pos h1]
      exact ih acc (fun q hq => h q (by simp [hq]))

/-- Every result the filtering loop adds under a truthy caller company
either matches that company or is a `"general"` document. -/
theorem filterLoop_company (ml : List IndexEntryMeta) (c : String)
    (hc : c ≠ "") (k : Nat) (t : Int) (cands : List (Int × Int))
    (acc res : List SearchResult)
    (hacc : ∀ r ∈ acc, r.metadata.meta.document_type = "general" ∨
      r.metadata.meta.company_number = some c)
    (h : filterLoop ml (some c) k t cands acc = .ok res) :
    ∀ r ∈ res, r.metadata.meta.document_type = "general" ∨
      r.metadata.meta.company_number = some c := by
  induction cands generalizing acc with
  | nil =>
      simp only [filterLoop, Except.ok.injEq] at h
      subst h; exact hacc
  | cons p rest ih =>
      obtain ⟨score, idx⟩ := p
      simp only [filterLoop] at h
      split at h
      · exact ih acc hacc h
      · split at h
        · exact Except.noConfusion h
        · rename_i md hg
          split at h
          · exact ih acc hacc h
          · rename_i h2
            have hmd : md.meta.document_type = "general" ∨
                md.meta.company_number = some c := by
              have hst : strTruthy (some c) = true := by
                simp [strTruthy, hc]
              by_cases hco : md.meta.company_number = some c
              · right; exact hco
              · by_cases hdt : md.meta.document_type = "general"
                · left; exact hdt
                · exact absurd ⟨hst, hco, hdt⟩ h2
            have hgrow : ∀ r ∈ acc ++
                [⟨score, md, "Document chunk from " ++ md.meta.doc_id⟩],
                r.metadata.meta.document_type = "general" ∨
                r.metadata.meta.company_number = some c := by
              intro r hr
              rcases List.mem_append.mp hr with h4 | h4
              · exact hacc r h4
              · rw [List.mem_singleton] at h4
                subst h4
                exact hmd
            split at h
            · cases h
              exact hgrow
            · exact ih _ hgrow h

/-! ## Claims about search and delete -/

/-- C3 (amended): `search_documents` returns an empty list — never an
error — when no index exists yet, when no candidate passes the threshold
(or all are `idx == -1`), and ALSO when a collaborator fails (embedding
provider failure or unreadable index artifacts); the code's blanket
`except Exception: return []` converts every such error into an empty
result instead of propagating it. -/
theorem search_empty_never_raises (env : SearchEnv) (cn : Option String)
    (k : Nat) (t : Int)
    (h : (∃ e, env.embed = .error e) ∨ env.load = .absent ∨
         env.load = .failed ∨
         (∃ store, env.load = .loaded store ∧
           ∀ p ∈ env.ann store (min (k * 3) store.vectors.length),
             p.2 = -1 ∨ p.1 < t)) :
    searchDocuments env cn k t = [] := by
  rcases h with ⟨e, he⟩ | hl | hl | ⟨store, hl, hall⟩
  · simp [searchDocuments, searchBody, he]
  · cases hem : env.embed <;> simp [searchDocuments, searchBody, hem, hl]
  · cases hem : env.embed <;> simp [searchDocuments, searchBody, hem, hl]
  · cases hem : env.embed with
    | error e => simp [searchDocuments, searchBody, hem]
    | ok q =>
        simp [searchDocuments, searchBody, hem, hl,
          filterLoop_skip_all _ _ _ _ _ _ hall]

/-- A search environment whose index holds a perfectly matching entry but
whose embedding call raises. -/
def envEmbedFail : SearchEnv :=
  ⟨.error "embedding provider failure",
   .loaded ⟨[[1]], [⟨0, ⟨"dX", 0, none, "general", 1⟩⟩]⟩,
   fun _ _ => [(100, 0)]⟩

/-- C3 counterexample: an embedding-provider failure does NOT propagate
to the caller — the body raises, and `search_documents` converts it into
an empty result, indistinguishable from "no results". -/
theorem search_converts_embed_error_to_empty :
    searchBody envEmbedFail none 5 70 = .error "embedding provider failure" ∧
    searchDocuments envEmbedFail none 5 70 = [] :=
  ⟨rfl, rfl⟩

/-- C2 (amended): when the caller supplies a non-empty `company_number`,
every returned entry either is a `"general"` document or carries exactly
the caller's company; when the caller's company is absent (or empty, by
Python truthiness) NO tenant filtering is applied at all. -/
theorem search_tenant_scoping (env : SearchEnv) (c : String) (k : Nat)
    (t : Int) (hc : c ≠ "") :
    ∀ r ∈ searchDocuments env (some c) k t,
      r.metadata.meta.document_type = "general" ∨
      r.metadata.meta.company_number = some c := by
  cases hb : searchBody env (some c) k t with
  | error e => simp [searchDocuments_of_body_error hb]
  | ok res =>
      rw [searchDocuments_of_body_ok hb]
      cases hem : env.embed with
      | error e => rw [searchBody, hem] at hb; cases hb
      | ok q =>
          cases hl : env.load with
          | absent =>
              rw [searchBody, hem, hl] at hb
              cases hb
              simp
          | failed => rw [searchBody, hem, hl] at hb; cases hb
          | loaded store =>
              rw [searchBody, hem, hl] at hb
              exact filterLoop_company _ c hc _ _ _ _ _ (by simp) hb

/-- A store holding a single tenant-scoped chunk of company `"A"`, with a
candidate above the threshold. -/
def storeA : VectorStore :=
  ⟨[[1]], [⟨0, ⟨"dA", 0, some "A", "company_specific", 5⟩⟩]⟩

/-- Search environment over `storeA`. -/
def envA : SearchEnv := ⟨.ok [1], .loaded storeA, fun _ _ => [(100, 0)]⟩

/-- C2 counterexample: the tenant-scoped entry of company `"A"` IS
returned to a caller whose `company_number` is absent (the code only
filters when a truthy company is supplied), while callers `"B"` and
`"A"` behave as the claim says. -/
theorem tenant_scoped_leaks_to_absent_caller :
    searchDocuments envA none 5 70 =
      [⟨100, ⟨0, ⟨"dA", 0, some "A", "company_specific", 5⟩⟩,
        "Document chunk from dA"⟩] ∧
    searchDocuments envA (some "B") 5 70 = [] ∧
    searchDocuments envA (some "A") 5 70 =
      [⟨100, ⟨0, ⟨"dA", 0, some "A", "company_specific", 5⟩⟩,
        "Document chunk from dA"⟩] := by
  refine ⟨by decide, by decide, by decide⟩

/-- C1 (amended): a successful `delete_document` removes exactly the
catalog rows with the given `doc_id` and touches nothing else — in
particular the vector store artifacts are not modified — and since the
search path never consults the catalog, a subsequent search over an index
still holding the document's vectors can return metadata referencing the
deleted `doc_id`. -/
theorem delete_only_removes_catalog_row (lf df : Bool) (d : String)
    (db db' : Catalog) (h : deleteDocument lf df d db = (true, db')) :
    db' = db.filter (fun r => r.doc_id != d) ∧
    ∃ env : SearchEnv, ∃ r ∈ searchDocuments env none 5 70,
      r.metadata.meta.doc_id = d := by
  constructor
  · by_cases hlf : lf
    · simp [deleteDocument, hlf] at h
    · cases hf : db.find? (fun r => r.doc_id == d) with
      | none => simp [deleteDocument, hlf, hf] at h
      | some row =>
          by_cases hdf : df
          · simp [deleteDocument, hlf, hf, hdf] at h
          · simp [deleteDocument, hlf, hf, hdf] at h
            exact h.symm
  · refine ⟨⟨.ok [1],
      .loaded ⟨[[1]], [⟨0, ⟨d, 0, none, "general", 1⟩⟩]⟩,
      fun _ _ => [(100, 0)]⟩,
      ⟨100, ⟨0, ⟨d, 0, none, "general", 1⟩⟩, "Document chunk from " ++ d⟩,
      ?_, rfl⟩
    have hs : searchDocuments
        ⟨.ok [1], .loaded ⟨[[1]], [⟨0, ⟨d, 0, none, "general", 1⟩⟩]⟩,
          fun _ _ => [(100, 0)]⟩ none 5 70 =
        [⟨100, ⟨0, ⟨d, 0, none, "general", 1⟩⟩,
          "Document chunk from " ++ d⟩] := rfl
    rw [hs]
    exact List.mem_singleton.mpr rfl

/-- The catalog state before the C1 counterexample: one document `"D"`. -/
def dbD : Catalog := [⟨"D", "u", none, "general", 1, [0]⟩]

/-- The persisted index after ingesting `"D"` (one vector, one metadata
entry); `delete_document` never touches these artifacts, so this is also
the index state after the delete. -/
def storeD : VectorStore := ⟨[[1]], [⟨0, ⟨"D", 0, none, "general", 5⟩⟩]⟩

/-- Search environment over the post-delete state. -/
def envD : SearchEnv := ⟨.ok [1], .loaded storeD, fun _ _ => [(100, 0)]⟩

/-- C1 counterexample: deleting `"D"` succeeds (the catalog row is
removed), the vector store is untouched by construction of the code's
delete path, and a subsequent search returns metadata referencing
`"D"` — the code has no catalog-liveness filter. -/
theorem deleted_doc_still_returned_by_search :
    deleteDocument false false "D" dbD = (true, []) ∧
    (searchDocuments envD none 5 70).map
      (fun r => r.metadata.meta.doc_id) = ["D"] := by
  refine ⟨by decide, by decide⟩

/-- C7 (amended): no length-consistency check between the vector artifact
and the metadata artifact exists anywhere.  During search, an unreadable
artifact pair or an out-of-range metadata access (the symptom of
inconsistent lengths) raises inside the `try` body and is converted into
an empty result — never a fatal `IndexIOError`.  During the append, an
unreadable artifact pair raises a generic
`HTTPException(500, "Error storing in vector database")`. -/
theorem index_inconsistency_not_fatal (env : SearchEnv)
    (cn : Option String) (k : Nat) (t : Int) (e : String)
    (nrm : Vec → Vec) (chunks : List (Vec × ChunkMeta))
    (h : searchBody env cn k t = .error e) :
    searchDocuments env cn k t = [] ∧
    storeInVectorDb nrm .failed chunks =
      .error ⟨500, "Error storing in vector database"⟩ :=
  ⟨searchDocuments_of_body_error h, rfl⟩

/-- A persisted state whose artifacts are inconsistent: one vector but
zero metadata entries. -/
def storeSkewed : VectorStore := ⟨[[1]], []⟩

/-- Search environment over the skewed store; FAISS returns the stored
vector as a candidate. -/
def envSkewed : SearchEnv := ⟨.ok [1], .loaded storeSkewed, fun _ _ => [(100, 0)]⟩

/-- C7 counterexample: searching the length-inconsistent artifact pair
raises `IndexError` internally and surfaces as a silent empty result (not
`IndexIOError`), and appending to the same inconsistent pair succeeds
without any consistency check. -/
theorem skewed_artifacts_silently_accepted :
    searchBody envSkewed none 5 70 = .error "IndexError" ∧
    searchDocuments envSkewed none 5 70 = [] ∧
    storeInVectorDb (fun v => v) (.loaded storeSkewed)
        [([2], ⟨"d", 0, none, "general", 1⟩)] =
      .ok ([1], ⟨[[1], [2]], [⟨1, ⟨"d", 0, none, "general", 1⟩⟩]⟩) :=
  ⟨rfl, by decide, rfl⟩

/-! ## Vector id assignment (C8) -/

theorem length_withIds (s : Nat) (l : List ChunkMeta) :
    (withIds s l).length = l.length := by
  induction l generalizing s with
  | nil => rfl
  | cons m rest ih => simp [withIds, ih]

theorem getElem?_withIds (s : Nat) (l : List ChunkMeta) (i : Nat) :
    (withIds s l)[i]? = l[i]?.map (fun m => ⟨s + i, m⟩) := by
  induction l generalizing s i with
  | nil => simp [withIds]
  | cons m rest ih =>
      cases i with
      | zero => simp [withIds]
      | succ j =>
          simp only [withIds, List.getElem?_cons_succ, ih (s + 1) j]
          have h1 : s + 1 + j = s + (j + 1) := by omega
          rw [h1]

theorem getElem?_chunkWithMeta (d : String) (co : Option String)
    (dt : String) (s : Nat) (l : List (List Nat)) (i : Nat) :
    (chunkWithMeta d co dt s l)[i]? =
      l[i]?.map (fun c => (c, ⟨d, s + i, co, dt, c.length⟩)) := by
  induction l generalizing s i with
  | nil => simp [chunkWithMeta]
  | cons cHead rest ih =>
      cases i with
      | zero => simp [chunkWithMeta]
      | succ j =>
          simp only [chunkWithMeta, List.getElem?_cons_succ, ih (s + 1) j]
          have h1 : s + 1 + j = s + (j + 1) := by omega
          rw [h1]

/-- C8 (confirmed): an append of `N` entries to the index assigns exactly
the identifiers `size, size+1, ..., size+N-1` where `size` is the index's
current vector count; the index grows to `size + N`; the `i`-th appended
chunk receives `vector_id = size + i` and its metadata entry is written at
the corresponding position; any later append assigns strictly larger
identifiers (so ids are unique, monotone and never reused); and within one
ingest the chunker assigns `chunk_index = i` to the `i`-th chunk, so
`chunk_index i` corresponds to the `i`-th `vector_id` appended. -/
theorem vector_ids_consecutive (nrm : Vec → Vec) (ls : LoadState)
    (st0 : VectorStore) (chunks : List (Vec × ChunkMeta)) (ids : List Nat)
    (st' : VectorStore) (h0 : loadStore ls = some st0)
    (h : storeInVectorDb nrm ls chunks = .ok (ids, st')) :
    ids = List.range' st0.vectors.length chunks.length ∧
    st'.vectors.length = st0.vectors.length + chunks.length ∧
    (∀ i c, chunks[i]? = some c →
      ids[i]? = some (st0.vectors.length + i) ∧
      st'.metadata[st0.metadata.length + i]? =
        some ⟨st0.vectors.length + i, c.2⟩) ∧
    (∀ (nrm2 : Vec → Vec) (chunks2 : List (Vec × ChunkMeta))
        (ids2 : List Nat) (st2 : VectorStore),
      storeInVectorDb nrm2 (.loaded st') chunks2 = .ok (ids2, st2) →
      ∀ a ∈ ids, ∀ b ∈ ids2, a < b) ∧
    (∀ (tokens : List Nat) (docId : String) (co : Option String)
        (dt : String) (i : Nat) (m : List Nat × ChunkMeta),
      (chunkDocument tokens docId co dt)[i]? = some m →
      m.2.chunk_index = i) := by
  simp only [storeInVectorDb, h0] at h
  rw [Except.ok.injEq, Prod.mk.injEq] at h
  obtain ⟨hids, hst⟩ := h
  subst hids hst
  refine ⟨rfl, by simp, ?_, ?_, ?_⟩
  · intro i c hc
    have hi : i < chunks.length := by
      by_contra hcon
      rw [List.getElem?_eq_none (by omega)] at hc
      exact Option.noConfusion hc
    constructor
    · rw [List.getElem?_range' _ _ hi]
      simp
    · rw [List.getElem?_append_right (by omega)]
      have h2 : st0.metadata.length + i - st0.metadata.length = i := by omega
      rw [h2, getElem?_withIds, List.getElem?_map, hc]
      rfl
  · intro nrm2 chunks2 ids2 st2 h2 a ha b hb
    simp only [storeInVectorDb, loadStore] at h2
    rw [Except.ok.injEq, Prod.mk.injEq] at h2
    obtain ⟨hids2, _⟩ := h2
    subst hids2
    rw [List.mem_range'_1] at ha hb
    simp only [List.length_append, List.length_map] at hb
    omega
  · intro tokens docId co dt i m hm
    rw [chunkDocument, getElem?_chunkWithMeta] at hm
    cases hg : (chunkText tokens chunk_size chunk_overlap)[i]? with
    | none => rw [hg] at hm; exact Option.noConfusion hm
    | some c =>
        rw [hg] at hm
        simp only [Option.map_some', Option.some.injEq] at hm
        rw [← hm]
        simp

/-- Concrete store with two vectors already present. -/
def storeTwo : VectorStore :=
  ⟨[[9], [8]], [⟨0, ⟨"x", 0, none, "general", 1⟩⟩,
               ⟨1, ⟨"x", 1, none, "general", 1⟩⟩]⟩

/-- Witness for `vector_ids_consecutive`: appending two chunks to a
two-vector index assigns ids 2 and 3. -/
theorem vector_ids_consecutive_witness :
    loadStore (.loaded storeTwo) = some storeTwo ∧
    storeInVectorDb (fun v => v) (.loaded storeTwo)
        [([2], ⟨"d", 0, none, "general", 1⟩),
         ([3], ⟨"d", 1, none, "general", 1⟩)] =
      .ok ([2, 3],
        ⟨[[9], [8], [2], [3]],
         [⟨0, ⟨"x", 0, none, "general", 1⟩⟩, ⟨1, ⟨"x", 1, none, "general", 1⟩⟩,
          ⟨2, ⟨"d", 0, none, "general", 1⟩⟩,
          ⟨3, ⟨"d", 1, none, "general", 1⟩⟩]⟩) ∧
    [2, 3] = List.range' storeTwo.vectors.length 2 :=
  ⟨rfl, rfl,
    (vector_ids_consecutive (fun v => v) (.loaded storeTwo) storeTwo
      [([2], ⟨"d", 0, none, "general", 1⟩), ([3], ⟨"d", 1, none, "general", 1⟩)]
      [2, 3]
      ⟨[[9], [8], [2], [3]],
       [⟨0, ⟨"x", 0, none, "general", 1⟩⟩, ⟨1, ⟨"x", 1, none, "general", 1⟩⟩,
        ⟨2, ⟨"d", 0, none, "general", 1⟩⟩,
        ⟨3, ⟨"d", 1, none, "general", 1⟩⟩]⟩ rfl rfl).1⟩

/-! ## Upload pipeline (C9) -/

/-- The chunks produced during an upload, as a function of the
environment (empty when extraction failed — the chunker is then never
reached). -/
def ingestChunks (env : UploadEnv) (docId : String) (co : Option String)
    (dt : String) : List (List Nat × ChunkMeta) :=
  match env.extractResult with
  | .error _ => []
  | .ok text => chunkDocument (env.tokenize text) docId co dt

/-- The (embedding, metadata) pairs handed to the vector-store append
during an upload (empty when embedding failed — the append is then never
reached). -/
def ingestPairs (env : UploadEnv) (docId : String) (co : Option String)
    (dt : String) : List (Vec × ChunkMeta) :=
  match env.embedResult with
  | .error _ => []
  | .ok embeds =>
      ((ingestChunks env docId co dt).zip embeds).map (fun p => (p.2, p.1.2))

/-- C9 (confirmed): any failure during validation (file size), text
extraction (unsupported extension, parse error, empty text) or embedding
aborts the upload before the vector index is mutated — the persisted
index artifacts and the catalog are exactly as before the call and an
error is raised; and whenever the catalog gains a row the vector-store
append had already succeeded, with the row recorded only after it. -/
theorem upload_aborts_before_index_mutation (env : UploadEnv)
    (docId : String) (co : Option String) (dt userId : String)
    (db : Catalog) :
    (preIndexFailure env = true →
      (uploadDocument env docId co dt userId db).store = env.load ∧
      (uploadDocument env docId co dt userId db).db = db ∧
      ∃ e, (uploadDocument env docId co dt userId db).resp = .error e) ∧
    ((uploadDocument env docId co dt userId db).db ≠ db →
      ∃ ids st',
        storeInVectorDb env.nrm env.load (ingestPairs env docId co dt) =
          .ok (ids, st') ∧
        (uploadDocument env docId co dt userId db).store = .loaded st' ∧
        (uploadDocument env docId co dt userId db).db =
          db ++ [⟨docId, userId, co, dt,
            (ingestChunks env docId co dt).length, ids⟩]) := by
  by_cases hsize : max_file_size < env.size
  · constructor
    · intro hp
      refine ⟨?_, ?_, ⟨⟨400, "File too large"⟩, ?_⟩⟩ <;>
        simp [uploadDocument, hsize]
    · intro hdb
      exact absurd (by simp [uploadDocument, hsize]) hdb
  · by_cases hkind : env.kind = .other
    · constructor
      · intro hp
        refine ⟨?_, ?_, ⟨⟨400, "Unsupported file type"⟩, ?_⟩⟩ <;>
          simp [uploadDocument, hsize, hkind]
      · intro hdb
        exact absurd (by simp [uploadDocument, hsize, hkind]) hdb
    · cases hext : env.extractResult with
      | error u =>
          constructor
          · intro hp
            refine ⟨?_, ?_, ⟨⟨400, "Error reading PDF file"⟩, ?_⟩⟩ <;>
              simp [uploadDocument, hsize, hkind, hext]
          · intro hdb
            exact absurd (by simp [uploadDocument, hsize, hkind, hext]) hdb
      | ok text =>
          by_cases htrim : text.data.all Char.isWhitespace = true
          · constructor
            · intro hp
              refine ⟨?_, ?_, ⟨⟨400, "No text content found in file"⟩, ?_⟩⟩ <;>
                simp [uploadDocument, hsize, hkind, hext, htrim]
            · intro hdb
              exact absurd
                (by simp [uploadDocument, hsize, hkind, hext, htrim]) hdb
          · cases hemb : env.embedResult with
            | error u =>
                constructor
                · intro hp
                  refine ⟨?_, ?_, ⟨⟨500, "Error generating embeddings"⟩, ?_⟩⟩ <;>
                    simp [uploadDocument, hsize, hkind, hext, htrim, hemb]
                · intro hdb
                  exact absurd
                    (by simp [uploadDocument, hsize, hkind, hext, htrim,
                      hemb]) hdb
            | ok embeds =>
                have hpre : preIndexFailure env = false := by
                  simp [preIndexFailure, hkind, hext, htrim, hemb]
                  omega
                constructor
                · intro hcon
                  rw [hpre] at hcon
                  exact Bool.noConfusion hcon
                · intro hdb
                  have hpairs : ingestPairs env docId co dt =
                      ((chunkDocument (env.tokenize text) docId co dt).zip
                        embeds).map (fun p => (p.2, p.1.2)) := by
                    simp [ingestPairs, ingestChunks, hext, hemb]
                  cases hst : storeInVectorDb env.nrm env.load
                      (((chunkDocument (env.tokenize text) docId co
                        dt).zip embeds).map (fun p => (p.2, p.1.2))) with
                  | error e =>
                      exfalso
                      apply hdb
                      simp [uploadDocument, hsize, hkind, hext, htrim,
                        hemb, hst]
                  | ok out =>
                      obtain ⟨ids, st'⟩ := out
                      by_cases hins : env.dbInsertOk
                      · refine ⟨ids, st', by rw [hpairs]; exact hst, ?_, ?_⟩ <;>
                          simp [uploadDocument, hsize, hkind, hext, htrim,
                            hemb, hst, hins, ingestChunks]
                      · exfalso
                        apply hdb
                        simp [uploadDocument, hsize, hkind, hext, htrim,
                          hemb, hst, hins]

/-- An upload whose embedding call fails (all earlier steps succeed). -/
def envPre : UploadEnv :=
  ⟨0, .txt, .ok "hello", fun _ => [1, 2, 3], .error (), fun v => v,
   .absent, true⟩

/-- A fully successful upload over a fresh index. -/
def envOkUp : UploadEnv :=
  ⟨5, .txt, .ok "hello", fun _ => [1, 2, 3], .ok [[1]], fun v => v,
   .absent, true⟩

/-- Witness for `upload_aborts_before_index_mutation`: an
embedding-stage failure leaves the artifacts and the catalog untouched,
and a successful upload's catalog row appears only with the completed
append. -/
theorem upload_aborts_before_index_mutation_witness :
    (preIndexFailure envPre = true ∧
      ((uploadDocument envPre "d" none "general" "u" []).store =
          envPre.load ∧
       (uploadDocument envPre "d" none "general" "u" []).db = [] ∧
       ∃ e, (uploadDocument envPre "d" none "general" "u" []).resp =
          .error e)) ∧
    ((uploadDocument envOkUp "d" none "general" "u" []).db ≠ [] ∧
      ∃ ids st',
        storeInVectorDb envOkUp.nrm envOkUp.load
            (ingestPairs envOkUp "d" none "general") = .ok (ids, st') ∧
        (uploadDocument envOkUp "d" none "general" "u" []).store =
          .loaded st' ∧
        (uploadDocument envOkUp "d" none "general" "u" []).db =
          [] ++ [⟨"d", "u", none, "general",
            (ingestChunks envOkUp "d" none "general").length, ids⟩]) :=
  ⟨⟨by decide,
    (upload_aborts_before_index_mutation envPre "d" none "general" "u"
      []).1 (by decide)⟩,
   ⟨by decide,
    (upload_aborts_before_index_mutation envOkUp "d" none "general" "u"
      []).2 (by decide)⟩⟩

/-! ## Delete failure indistinguishability (C10) -/

/-- C10 (confirmed): the delete service catches every exception — a
database failure during its row lookup or during the delete/commit
returns `False` with the catalog unchanged (the row, if present, still
exists) — and at the route level that `False` raises
`HTTPException(404, "Document not found")`, exactly the response
produced when the document does not exist: a backend failure during
delete is indistinguishable from "not found" at the public interface. -/
theorem delete_backend_failure_is_not_found (d u : String) (db : Catalog) :
    (∀ lookupFails deleteFails : Bool,
      (lookupFails = true ∨ deleteFails = true) →
      deleteDocument lookupFails deleteFails d db = (false, db)) ∧
    (db.find? (fun r => r.doc_id == d) = none →
      deleteDocumentRoute false false false d u db =
        (.err 404 "Document not found", db)) ∧
    (∀ row, db.find? (fun r => r.doc_id == d) = some row →
      row.user_id = u →
      deleteDocumentRoute false true false d u db =
        (.err 404 "Document not found", db) ∧
      deleteDocumentRoute false false true d u db =
        (.err 404 "Document not found", db)) := by
  refine ⟨?_, ?_, ?_⟩
  · rintro lf df (hl | hd)
    · simp [deleteDocument, hl]
    · subst hd
      cases hf : db.find? (fun r => r.doc_id == d) with
      | none => simp [deleteDocument, hf]
      | some row => cases lf <;> simp [deleteDocument, hf]
  · intro hf
    simp [deleteDocumentRoute, hf]
  · intro row hrow huser
    constructor <;>
      simp [deleteDocumentRoute, deleteDocument, hrow, huser]

/-- A catalog holding one document owned by `"uu"`. -/
def dbOwned : Catalog := [⟨"dd", "uu", none, "general", 1, [0]⟩]

/-- Witness for `delete_backend_failure_is_not_found`: with the row
present and owned by the caller, a backend failure in the service's
lookup or delete step surfaces as the same 404 produced for a missing
document, and the row survives. -/
theorem delete_backend_failure_is_not_found_witness :
    (dbOwned.find? (fun r => r.doc_id == "dd") =
        some ⟨"dd", "uu", none, "general", 1, [0]⟩) ∧
    (deleteDocumentRoute false true false "dd" "uu" dbOwned =
        (.err 404 "Document not found", dbOwned) ∧
     deleteDocumentRoute false false true "dd" "uu" dbOwned =
        (.err 404 "Document not found", dbOwned)) :=
  ⟨by decide,
   (delete_backend_failure_is_not_found "dd" "uu" dbOwned).2.2
     ⟨"dd", "uu", none, "general", 1, [0]⟩ (by decide) rfl⟩

/-! ## Witnesses for the remaining hypothesis-bearing claim theorems -/

/-- Witness for `delete_only_removes_catalog_row`: deleting `"D"` from
the one-row catalog succeeds, leaves exactly the filtered catalog, and
the deleted document remains reachable through some search. -/
theorem delete_only_removes_catalog_row_witness :
    deleteDocument false false "D" dbD = (true, []) ∧
    (([] : Catalog) = dbD.filter (fun r => r.doc_id != "D") ∧
     ∃ env : SearchEnv, ∃ r ∈ searchDocuments env none 5 70,
       r.metadata.meta.doc_id = "D") :=
  ⟨by decide,
   delete_only_removes_catalog_row false false "D" dbD [] (by decide)⟩

/-- Witness for `search_tenant_scoping`: the result returned to caller
`"A"` over `envA` carries company `"A"`. -/
theorem search_tenant_scoping_witness :
    ("A" : String) ≠ "" ∧
    ((⟨100, ⟨0, ⟨"dA", 0, some "A", "company_specific", 5⟩⟩,
        "Document chunk from dA"⟩ :
        SearchResult).metadata.meta.document_type = "general" ∨
     (⟨100, ⟨0, ⟨"dA", 0, some "A", "company_specific", 5⟩⟩,
        "Document chunk from dA"⟩ :
        SearchResult).metadata.meta.company_number = some "A") :=
  ⟨by decide,
   search_tenant_scoping envA "A" 5 70 (by decide)
     ⟨100, ⟨0, ⟨"dA", 0, some "A", "company_specific", 5⟩⟩,
       "Document chunk from dA"⟩ (by decide)⟩

/-- A search over a loaded index where the only candidate scores below
the threshold. -/
def envLow : SearchEnv :=
  ⟨.ok [1], .loaded ⟨[[1]], [⟨0, ⟨"dL", 0, none, "general", 1⟩⟩]⟩,
   fun _ _ => [(10, 0)]⟩

/-- Witness for `search_empty_never_raises`: all candidates below the
threshold yields an empty result. -/
theorem search_empty_never_raises_witness :
    ((∃ e, envLow.embed = .error e) ∨ envLow.load = .absent ∨
      envLow.load = .failed ∨
      (∃ store, envLow.load = .loaded store ∧
        ∀ p ∈ envLow.ann store (min (5 * 3) store.vectors.length),
          p.2 = -1 ∨ p.1 < 70)) ∧
    searchDocuments envLow none 5 70 = [] :=
  ⟨Or.inr (Or.inr (Or.inr ⟨_, rfl, by decide⟩)),
   search_empty_never_raises envLow none 5 70
     (Or.inr (Or.inr (Or.inr ⟨_, rfl, by decide⟩)))⟩

/-- Witness for `chunk_single_iff`, at overlap 200 < window 1000. -/
theorem chunk_single_iff_witness :
    (200 : Nat) < 1000 ∧
    (chunkText [7] 1000 200 = [[7]] ↔
      0 < ([7] : List Nat).length ∧ ([7] : List Nat).length ≤ 1000 - 200) :=
  ⟨by decide, chunk_single_iff [7] 1000 200 (by decide)⟩

/-- Witness for `chunk_overlap_of_full`: a 12-token input with window 5
and overlap 2 — chunk 0 is full, and it shares its last 2 tokens with
the first 2 tokens of chunk 1. -/
theorem chunk_overlap_of_full_witness :
    ((0 : Nat) < 2 ∧ (2 : Nat) < 5 ∧
      0 * (5 - 2) + 5 ≤ (List.range 12).length) ∧
    (0 + 1 < (chunkText (List.range 12) 5 2).length ∧
     lastN 2 ((chunkText (List.range 12) 5 2).getD 0 []) =
       ((chunkText (List.range 12) 5 2).getD (0 + 1) []).take 2) :=
  ⟨by decide,
   chunk_overlap_of_full (List.range 12) 5 2 0 (by decide) (by decide)
     (by decide)⟩

/-- Witness for `index_inconsistency_not_fatal`, at the skewed store. -/
theorem index_inconsistency_not_fatal_witness :
    searchBody envSkewed none 5 70 = .error "IndexError" ∧
    (searchDocuments envSkewed none 5 70 = [] ∧
     storeInVectorDb (fun v => v) .failed [] =
       .error ⟨500, "Error storing in vector database"⟩) :=
  ⟨rfl,
   index_inconsistency_not_fatal envSkewed none 5 70 "IndexError"
     (fun v => v) [] rfl⟩

end DocService
